import Mathlib

/-!
Shallow embedding of `src/ts/Data/GoogleDataStore.ts` (the `GoogleDataStore`
class): the column builder `getSheetColumns`, the parse step `parseSheet`, the
load pipeline `fetchSheet` and the facade `load`, together with the JavaScript
array and string primitives they rely on.

Conventions of the embedding:
* A JavaScript array is a `List (Option α)`: `none` is a hole (an index that
  was never assigned, reading it gives `undefined`), and reading past the end
  also gives `undefined` (`jsGet` returns `none` in both cases).  Assigning
  past the end pads the array with holes, as in JavaScript.
* Dereferencing `undefined` (for example `columns[i][j]` when `columns[i]` is
  undefined) throws a `TypeError`; fallible computations therefore return
  `Except JsError _`.
* The cell feed's `numericValue` attribute is a decimal string in the wire
  format; we model it as `Option ℚ`, holding the number `parseFloat` yields
  when the attribute is present (JavaScript truthiness of the attribute =
  `Option.isSome`).  Arithmetic on it (`* 100`) is modelled exactly over `ℚ`.
* `$t` (the display text) is always present on a `gs$cell`, so it is a plain
  `String`; the source's `cellInner.$t && cellInner.$t.length` test is the
  non-empty-string test.
* `fireEvent(store, name, payload, continuation)` emits the event and then
  runs the continuation (no listeners are modelled; the default continuation
  always runs).  Event traces are returned as explicit lists.
-/

namespace GoogleDataStore

/-- A value stored in a column: JavaScript string, number or `null`. -/
inductive DataValue
  | str (s : String)
  | num (q : ℚ)
  | null
deriving DecidableEq

/-- Errors thrown by the embedded JavaScript: dereferencing `undefined`. -/
inductive JsError
  | typeError
deriving DecidableEq

/-- A JavaScript array: `none` entries are holes (`undefined` slots). -/
abbrev JsArr (α : Type) := List (Option α)

/-- Reading `a[i]`: `undefined` (`none`) for holes and out-of-range indices. -/
def jsGet {α : Type} (a : JsArr α) (i : Nat) : Option α :=
  a.getD i none

/-- Assigning `a[i] = v`: in-range assignment sets the slot, past-the-end
assignment pads with holes as JavaScript does. -/
def jsSet {α : Type} (a : JsArr α) (i : Nat) (v : α) : JsArr α :=
  if i < a.length then a.set i (some v)
  else a ++ List.replicate (i - a.length) none ++ [some v]

/-- First index of the character `ch` in a character list, if any. -/
def jsIndexOfChars (ch : Char) : List Char → Option Nat
  | [] => none
  | c :: cs => if c = ch then some 0 else (jsIndexOfChars ch cs).map (· + 1)

/-- JavaScript `s.indexOf(ch)` for a one-character needle: the index of the
first occurrence, `-1` when absent. -/
def jsIndexOf (s : String) (ch : Char) : Int :=
  match jsIndexOfChars ch s.data with
  | some i => (i : Int)
  | none => -1

/-- One entry of the cell feed, i.e. the `gs$cell` record of a feed entry:
1-based `row` and `col`, the optional `numericValue`, and the display text
`$t` (field `t` here). -/
structure GsCell where
  row : Nat
  col : Nat
  numericValue : Option ℚ
  t : String
deriving DecidableEq

/-- The options record (`GoogleDataStore.Options`). -/
structure SheetOptions where
  googleSpreadsheetKey : String
  worksheet : Nat
  startRow : Nat
  endRow : Nat
  startColumn : Nat
  endColumn : Nat
  enablePolling : Bool
  dataRefreshRate : Nat
deriving DecidableEq

/-- `Number.MAX_VALUE`, the default `endColumn`/`endRow`: the integer
`(2 - 2^-52) * 2^1023 = 2^1024 - 2^971`, written as a literal so concrete
runs of the column builder evaluate without reducing large powers. -/
def jsNumberMaxValue : Nat := 179769313486231570814527423731704356798070567525844996598917476803157260780028538760589558632766878171540458953514382464234321326889464182768467546703537516986049910576551282076245490090389328944075868508455133942304583236903222948165808559332123348274797826204144723168738177180919299881250404026184124858368

/-- Cross-check that the `jsNumberMaxValue` literal is `2^1024 - 2^971`. -/
theorem jsNumberMaxValue_eq : jsNumberMaxValue = 2 ^ 1024 - 2 ^ 971 := by
  unfold jsNumberMaxValue
  norm_num

/-- `GoogleDataStore.defaultOptions` from the source. -/
def defaultOptions : SheetOptions :=
  { googleSpreadsheetKey := ""
    worksheet := 1
    startRow := 0
    endRow := jsNumberMaxValue
    startColumn := 0
    endColumn := jsNumberMaxValue
    enablePolling := false
    dataRefreshRate := 2 }

/-- The value computed for one in-window cell (lines 141-158 of the source):
this is exactly the `val` that line 160 stores at
`columns[gc - startColumn][gr - startRow]`.

```js
if (cellInner.numericValue) {
    if (cellInner.$t.indexOf('/') >= 0 || cellInner.$t.indexOf('-') >= 0) {
        val = cellInner.$t;                              // date heuristic
    } else if (cellInner.$t.indexOf('%') > 0) {
        val = parseFloat(cellInner.numericValue) * 100;  // percentage
    } else {
        val = parseFloat(cellInner.numericValue);
    }
} else if (cellInner.$t && cellInner.$t.length) {
    val = cellInner.$t;
}
```
(`cellInner = cell.gs$cell || cell.content`; the feed always carries
`gs$cell`, which is what `GsCell` models.) -/
def cellValue (c : GsCell) : DataValue :=
  match c.numericValue with
  | some q =>
    if 0 ≤ jsIndexOf c.t '/' ∨ 0 ≤ jsIndexOf c.t '-' then DataValue.str c.t
    else if 0 < jsIndexOf c.t '%' then DataValue.num (q * 100)
    else DataValue.num q
  | none => if c.t ≠ "" then DataValue.str c.t else DataValue.null

/-- The window test of lines 138-139, on the 0-based indices
`gr = row - 1`, `gc = col - 1` (feed rows and columns are 1-based). -/
def inWindow (o : SheetOptions) (c : GsCell) : Prop :=
  o.startColumn ≤ c.col - 1 ∧ c.col - 1 ≤ o.endColumn ∧
    o.startRow ≤ c.row - 1 ∧ c.row - 1 ≤ o.endRow

instance (o : SheetOptions) (c : GsCell) : Decidable (inWindow o c) := by
  unfold inWindow; infer_instance

/-- `colCount`: the maximum 1-based column index present in the feed
(lines 114-118). -/
def colCountOf (cells : List GsCell) : Nat :=
  cells.foldl (fun m c => max m c.col) 0

/-- `rowCount`: the maximum 1-based row index present in the feed
(computed at line 117; never used afterwards by the source). -/
def rowCountOf (cells : List GsCell) : Nat :=
  cells.foldl (fun m c => max m c.row) 0

/-- Lines 121-127: allocate `columns[i - startColumn] = []` for every
`i < colCount` with `startColumn <= i <= endColumn`. -/
def allocColumns (o : SheetOptions) (colCount : Nat) : JsArr (JsArr DataValue) :=
  (List.range colCount).foldl
    (fun cols i =>
      if o.startColumn ≤ i ∧ i ≤ o.endColumn then jsSet cols (i - o.startColumn) ([] : JsArr DataValue)
      else cols)
    []

/-- Lines 131-162, one cell: if the cell is in the window, execute
`columns[gc - startColumn][gr - startRow] = val`.  Reading
`columns[gc - startColumn]` when that slot is undefined throws. -/
def assignCell (o : SheetOptions) (cols : JsArr (JsArr DataValue)) (c : GsCell) :
    Except JsError (JsArr (JsArr DataValue)) :=
  if inWindow o c then
    match jsGet cols (c.col - 1 - o.startColumn) with
    | none => Except.error JsError.typeError
    | some col =>
      Except.ok (jsSet cols (c.col - 1 - o.startColumn)
        (jsSet col (c.row - 1 - o.startRow) (cellValue c)))
  else Except.ok cols

/-- Lines 131-162: the assignment loop over all cells. -/
def assignCells (o : SheetOptions) (cells : List GsCell) (cols : JsArr (JsArr DataValue)) :
    Except JsError (JsArr (JsArr DataValue)) :=
  cells.foldlM (fun acc c => assignCell o acc c) cols

/-- The inner loop of lines 165-171:

```js
for (j = 0; j < cellCount; i++) {
    if (typeof columns[i][j] === 'undefined') {
        columns[i][j] = null;
    }
}
```

`j` stays `0` and is never incremented — the update steps `i`.  So whenever
`cellCount > 0` the loop can only stop by throwing: `i` grows until
`columns[i]` is undefined and `columns[i][0]` raises a TypeError.  The `fuel`
argument bounds the recursion; started at `columns.length + 1` it always
reaches that throw (each non-throwing step needs `i < columns.length` and
preserves the length), so the fuel-exhaustion branch, which returns the same
TypeError, is never taken. -/
def fillInner (cellCount : Nat) : Nat → JsArr (JsArr DataValue) → Nat →
    Except JsError (JsArr (JsArr DataValue))
  | 0, _, _ => Except.error JsError.typeError
  | fuel + 1, columns, i =>
    if 0 < cellCount then
      match jsGet columns i with
      | none => Except.error JsError.typeError
      | some col =>
        let columns' :=
          if jsGet col 0 = none then jsSet columns i (jsSet col 0 DataValue.null)
          else columns
        fillInner cellCount fuel columns' (i + 1)
    else Except.ok columns

/-- The outer loop of lines 165-171 (`for (i = 0; i < colCount; i++)`), with
`k = colCount - i` remaining iterations.  When `cellCount > 0` the first
iteration enters the inner loop and never returns normally; when
`cellCount = 0` the inner loop exits at once each time and the outer loop just
counts `i` up to `colCount`, leaving `columns` unchanged. -/
def fillOuterAux (cellCount : Nat) (columns : JsArr (JsArr DataValue)) :
    Nat → Nat → Except JsError (JsArr (JsArr DataValue))
  | _, 0 => Except.ok columns
  | i, k + 1 =>
    if 0 < cellCount then fillInner cellCount (columns.length + 1) columns i
    else fillOuterAux cellCount columns (i + 1) k

/-- Lines 164-171: the backfill ("Insert null for empty spreadsheet cells
(#5298)") loop pair. -/
def fillColumns (cellCount colCount : Nat) (columns : JsArr (JsArr DataValue)) :
    Except JsError (JsArr (JsArr DataValue)) :=
  fillOuterAux cellCount columns 0 colCount

/-- `getSheetColumns` (lines 90-174): count, allocate, assign, backfill. -/
def getSheetColumns (o : SheetOptions) (cells : List GsCell) :
    Except JsError (JsArr (JsArr DataValue)) :=
  let cellCount := cells.length
  let colCount := colCountOf cells
  match assignCells o cells (allocColumns o colCount) with
  | Except.error e => Except.error e
  | Except.ok cols => fillColumns cellCount colCount cols

/-- The fetched JSON payload, reduced to what the module reads:
`json.feed.entry`, which may be absent (`none`) or a list of cells. -/
structure SheetPayload where
  entry : Option (List GsCell)
deriving DecidableEq

/-- The Result Table built by the external collaborator
`DataParser.columnArrayToDataTable(store.columns, headers)`: modelled as a
record of its two arguments.  The header cells are the values
`store.columns[i][0]` the success handler pushes; their coercion to
JavaScript strings (the `'' + x` at line 231) is not modelled further since
nothing in the module inspects the header text. -/
structure DataTable where
  columns : JsArr (JsArr DataValue)
  headerCells : List (Option DataValue)
deriving DecidableEq

/-- The events the store fires, with their payloads. -/
inductive SheetEvent
  | load (json : SheetPayload)
  | parse (json : SheetPayload)
  | afterParse (columns : JsArr (JsArr DataValue))
  | afterLoad (table : DataTable)
  | fail (text : String)
deriving DecidableEq

/-- Observable outcome of one `parseSheet` call: the events fired, the final
`store.columns`, the returned value (`some false` on the empty-feed guard,
`none` for the implicit `undefined`), and a thrown error if `getSheetColumns`
threw inside the `parse` continuation. -/
structure ParseOutcome where
  events : List SheetEvent
  columns : JsArr (JsArr DataValue)
  retval : Option Bool
  thrown : Option JsError
deriving DecidableEq

/-- `parseSheet` (lines 176-196): guard on `!cells || cells.length === 0`,
then `fireEvent('parse', ...)` whose continuation builds the columns, stores
them, and fires `afterParse`.  The `parse` event is emitted before the
continuation runs, so it is on the trace even when `getSheetColumns` throws. -/
def parseSheet (o : SheetOptions) (cols : JsArr (JsArr DataValue)) (json : SheetPayload) :
    ParseOutcome :=
  match json.entry with
  | none => ⟨[], cols, some false, none⟩
  | some cells =>
    if cells.length = 0 then ⟨[], cols, some false, none⟩
    else
      match getSheetColumns o cells with
      | Except.error e => ⟨[SheetEvent.parse json], cols, none, some e⟩
      | Except.ok newCols =>
        ⟨[SheetEvent.parse json, SheetEvent.afterParse newCols], newCols, none, none⟩

/-- Lines 228-232: `colsCount = store.columns.length` and the header loop
pushing `'' + store.columns[i][0]`; reading an undefined column throws. -/
def extractHeaders (columns : JsArr (JsArr DataValue)) :
    Except JsError (List (Option DataValue)) :=
  (List.range columns.length).foldlM
    (fun hs i =>
      match jsGet columns i with
      | none => Except.error JsError.typeError
      | some col => Except.ok (hs ++ [jsGet col 0]))
    []

/-- Observable outcome of one load cycle: events fired, final
`store.columns`, the Result Table built (if the cycle got that far), whether
a polling timer was scheduled, and an error that escaped the handlers. -/
structure LoadOutcome where
  events : List SheetEvent
  columns : JsArr (JsArr DataValue)
  table : Option DataTable
  scheduled : Bool
  thrown : Option JsError
deriving DecidableEq

/-- The `success` handler of `fetchSheet` (lines 220-248): fire `load`, and in
its continuation run `parseSheet` (its returned value is ignored), extract the
headers, build the Result Table, schedule polling when enabled, and fire
`afterLoad`.  Note the continuation runs even when `parseSheet` took the
empty-feed guard. -/
def successHandler (o : SheetOptions) (cols : JsArr (JsArr DataValue)) (json : SheetPayload) :
    LoadOutcome :=
  let p := parseSheet o cols json
  match p.thrown with
  | some e => ⟨SheetEvent.load json :: p.events, p.columns, none, false, some e⟩
  | none =>
    match extractHeaders p.columns with
    | Except.error e => ⟨SheetEvent.load json :: p.events, p.columns, none, false, some e⟩
    | Except.ok hs =>
      ⟨SheetEvent.load json :: p.events ++ [SheetEvent.afterLoad (DataTable.mk p.columns hs)],
        p.columns, some (DataTable.mk p.columns hs), o.enablePolling, none⟩

/-- What the transport (`ajax`) hands back: a parsed payload to the `success`
callback, or an error detail to the `error` callback. -/
inductive TransportResult
  | success (json : SheetPayload)
  | failure (text : String)
deriving DecidableEq

/-- `fetchSheet` (lines 198-267), parameterised by the transport's answer for
the issued GET: the `success` path runs the load pipeline; the `error` path
(lines 250-263) only fires `fail` with the error detail. -/
def fetchSheet (o : SheetOptions) (cols : JsArr (JsArr DataValue)) (r : TransportResult) :
    LoadOutcome :=
  match r with
  | TransportResult.success json => successHandler o cols json
  | TransportResult.failure text => ⟨[SheetEvent.fail text], cols, none, false, none⟩

/-- `load` (lines 269-272): `googleSpreadsheetKey ? this.fetchSheet() : void 0`.
A `none` result means no request was issued, no event fired and no state
touched; string truthiness makes the guard "key is non-empty". -/
def load (o : SheetOptions) (cols : JsArr (JsArr DataValue)) (r : TransportResult) :
    Option LoadOutcome :=
  if o.googleSpreadsheetKey ≠ "" then some (fetchSheet o cols r) else none

end GoogleDataStore

namespace GoogleDataStore

/-- `jsIndexOfChars` finds nothing exactly when the character is absent. -/
theorem jsIndexOfChars_eq_none (ch : Char) (l : List Char) :
    jsIndexOfChars ch l = none ↔ ch ∉ l := by
  induction l with
  | nil => simp [jsIndexOfChars]
  | cons c cs ih =>
    by_cases h : c = ch
    · subst h
      simp [jsIndexOfChars]
    · simp only [jsIndexOfChars, if_neg h, Option.map_eq_none', ih, List.mem_cons]
      constructor
      · rintro hn (rfl | hm)
        · exact h rfl
        · exact hn hm
      · intro hn hm
        exact hn (Or.inr hm)

/-- JavaScript `indexOf` is non-negative exactly when the character occurs. -/
theorem jsIndexOf_nonneg_iff (s : String) (ch : Char) :
    0 ≤ jsIndexOf s ch ↔ ch ∈ s.data := by
  unfold jsIndexOf
  rcases h : jsIndexOfChars ch s.data with _ | i
  · have := (jsIndexOfChars_eq_none ch s.data).mp h
    simp [this]
  · have hmem : ch ∈ s.data := by
      by_contra hc
      rw [(jsIndexOfChars_eq_none ch s.data).mpr hc] at h
      cases h
    simp [hmem]

/-- Every slot of `jsSet a i v` is a slot of `a`, a hole, or `some v`. -/
theorem jsSet_mem_cases {α : Type} (a : JsArr α) (i : Nat) (v : α) (x : Option α)
    (hx : x ∈ jsSet a i v) : x ∈ a ∨ x = none ∨ x = some v := by
  unfold jsSet at hx
  split at hx
  · rcases List.mem_or_eq_of_mem_set hx with h | h
    · exact Or.inl h
    · exact Or.inr (Or.inr h)
  · rcases List.mem_append.mp hx with h | h
    · rcases List.mem_append.mp h with h | h
      · exact Or.inl h
      · exact Or.inr (Or.inl (List.eq_of_mem_replicate h))
    · rcases List.mem_singleton.mp h with rfl
      exact Or.inr (Or.inr rfl)

/-- Every slot the allocation loop produces is a hole or an empty column:
the loop only ever writes `[]`. -/
theorem allocColumns_mem (o : SheetOptions) (k : Nat) :
    ∀ x ∈ allocColumns o k, x = none ∨ x = some ([] : JsArr DataValue) := by
  unfold allocColumns
  have general :
      ∀ (l : List Nat) (acc : JsArr (JsArr DataValue)),
        (∀ x ∈ acc, x = none ∨ x = some ([] : JsArr DataValue)) →
        ∀ x ∈ l.foldl
          (fun cols i =>
            if o.startColumn ≤ i ∧ i ≤ o.endColumn then
              jsSet cols (i - o.startColumn) ([] : JsArr DataValue)
            else cols) acc,
          x = none ∨ x = some ([] : JsArr DataValue) := by
    intro l
    induction l with
    | nil => intro acc hacc; simpa using hacc
    | cons j js ih =>
      intro acc hacc x hx
      refine ih _ ?_ x hx
      intro y hy
      dsimp only at hy
      by_cases hj : o.startColumn ≤ j ∧ j ≤ o.endColumn
      · rw [if_pos hj] at hy
        rcases jsSet_mem_cases _ _ _ _ hy with h | h | h
        · exact hacc y h
        · exact Or.inl h
        · exact Or.inr h
      · rw [if_neg hj] at hy
        exact hacc y hy
  exact general (List.range k) [] (by simp)

/-- A cell outside the window is dropped by the assignment step. -/
theorem assignCell_out_of_window (o : SheetOptions) (cols : JsArr (JsArr DataValue))
    (c : GsCell) (h : ¬ inWindow o c) : assignCell o cols c = Except.ok cols := by
  unfold assignCell
  rw [if_neg h]

/-- A feed whose cells all lie outside the window leaves the column array of
the assignment loop untouched. -/
theorem assignCells_out_of_window (o : SheetOptions) (cells : List GsCell)
    (cols : JsArr (JsArr DataValue)) (h : ∀ c ∈ cells, ¬ inWindow o c) :
    assignCells o cells cols = Except.ok cols := by
  induction cells generalizing cols with
  | nil => rfl
  | cons c cs ih =>
    have hc : assignCell o cols c = Except.ok cols :=
      assignCell_out_of_window o cols c (h c (List.mem_cons_self c cs))
    have hrest : ∀ x ∈ cs, ¬ inWindow o x := fun x hx => h x (List.mem_cons_of_mem c hx)
    simp only [assignCells, List.foldlM_cons, hc]
    simpa [assignCells] using ih cols hrest

end GoogleDataStore


namespace GoogleDataStore

/-- If a cell carries a numeric value and its display text contains `'/'` or
`'-'`, the computed value is the display text (the date heuristic branch). -/
theorem cellValue_sep (c : GsCell) (q : ℚ) (hnum : c.numericValue = some q)
    (h : '/' ∈ c.t.data ∨ '-' ∈ c.t.data) : cellValue c = DataValue.str c.t := by
  have hcond : 0 ≤ jsIndexOf c.t '/' ∨ 0 ≤ jsIndexOf c.t '-' := by
    rcases h with h | h
    · exact Or.inl ((jsIndexOf_nonneg_iff c.t '/').mpr h)
    · exact Or.inr ((jsIndexOf_nonneg_iff c.t '-').mpr h)
  unfold cellValue
  rw [hnum]
  simp [hcond]

/-- Options as a user configures them: the defaults with a spreadsheet key. -/
def optsK : SheetOptions := { defaultOptions with googleSpreadsheetKey := "key" }

/-- A window that ends at row 5 (0-based), everything else default. -/
def optsRowsTo5 : SheetOptions :=
  { defaultOptions with googleSpreadsheetKey := "key", endRow := 5 }

/-- A one-cell feed whose only cell sits at 1-based row 10, outside
`optsRowsTo5`'s row window. -/
def feedOutside : List GsCell := [⟨10, 1, some 1, "1"⟩]

end GoogleDataStore

namespace GoogleDataStore

/-- C6: for every cell that carries a numeric value and whose display text
contains `'/'` or `'-'`, the value computed for it — and stored at
`columns[gc - startColumn][gr - startRow]` when the cell is in the window —
is the original display text unchanged, never the parsed number. -/
theorem c6_date_heuristic_keeps_text (c : GsCell) (q : ℚ)
    (hnum : c.numericValue = some q)
    (h : '/' ∈ c.t.data ∨ '-' ∈ c.t.data) :
    cellValue c = DataValue.str c.t :=
  cellValue_sep c q hnum h

/-- C6 witness: the cell with text `"2021-01-01"` and a numeric value present
yields the literal string `"2021-01-01"`. -/
theorem c6_witness :
    cellValue ⟨1, 1, some 44197, "2021-01-01"⟩ = DataValue.str "2021-01-01" :=
  c6_date_heuristic_keeps_text ⟨1, 1, some 44197, "2021-01-01"⟩ 44197 rfl (by decide)

/-- C9: a cell carrying a numeric value whose display text is a plain
negative number (a `'-'` followed by digits) hits the date heuristic — its
`'-'` makes `indexOf('-') >= 0` — so the stored value is the display text as
a string, never a number. -/
theorem c9_negative_number_kept_as_text (c : GsCell) (q : ℚ) (ds : List Char)
    (hnum : c.numericValue = some q)
    (ht : c.t.data = '-' :: ds)
    (_hdigits : ∀ d ∈ ds, d.isDigit) :
    cellValue c = DataValue.str c.t ∧ ∀ r : ℚ, cellValue c ≠ DataValue.num r := by
  have hmem : '-' ∈ c.t.data := by
    rw [ht]
    exact List.mem_cons_self _ _
  have h1 : cellValue c = DataValue.str c.t := cellValue_sep c q hnum (Or.inr hmem)
  refine ⟨h1, ?_⟩
  intro r hr
  rw [h1] at hr
  exact DataValue.noConfusion hr

/-- C9 witness: text `"-5"` with numeric value `-5` is stored as the string
`"-5"`. -/
theorem c9_witness :
    cellValue ⟨1, 1, some (-5), "-5"⟩ = DataValue.str "-5" :=
  (c9_negative_number_kept_as_text ⟨1, 1, some (-5), "-5"⟩ (-5) ['5'] rfl (by decide)
    (by decide)).1

/-- C5 counterexample: the claim quantifies over every display text containing
a `'%'`, but the source tests `indexOf('%') > 0`, so a `'%'` at position 0 is
not treated as a percentage.  The cell with text `"%1"` and numeric value `10`
contains `'%'` and neither `'/'` nor `'-'`, yet its value is `10`, and `10` is
not `10 * 100`. -/
theorem c5_counterexample :
    cellValue ⟨1, 1, some 10, "%1"⟩ = DataValue.num 10 ∧
    (10 : ℚ) * 100 = 1000 ∧
    decide ((10 : ℚ) = 1000) = false ∧
    decide ('%' ∈ "%1".data) = true ∧
    decide ('/' ∈ "%1".data) = false ∧
    decide ('-' ∈ "%1".data) = false := by
  refine ⟨rfl, by norm_num, by decide, by decide, by decide, by decide⟩

/-- C5 amended: for every cell that carries a numeric value and whose display
text contains neither `'/'` nor `'-'` and whose first `'%'` occurs at a
position strictly greater than 0 (the source tests `indexOf('%') > 0`, so a
leading `'%'` does not count), the stored value is the parsed numeric value
multiplied by 100. -/
theorem c5_percentage_amended (c : GsCell) (q : ℚ)
    (hnum : c.numericValue = some q)
    (hslash : '/' ∉ c.t.data) (hdash : '-' ∉ c.t.data)
    (hpct : 0 < jsIndexOf c.t '%') :
    cellValue c = DataValue.num (q * 100) := by
  have h1 : ¬ (0 ≤ jsIndexOf c.t '/' ∨ 0 ≤ jsIndexOf c.t '-') := by
    rintro (h | h)
    · exact hslash ((jsIndexOf_nonneg_iff c.t '/').mp h)
    · exact hdash ((jsIndexOf_nonneg_iff c.t '-').mp h)
  unfold cellValue
  rw [hnum]
  simp [h1, hpct]

/-- C5 witness: text `"10%"` with numeric value `10` yields `1000`. -/
theorem c5_witness : cellValue ⟨1, 1, some 10, "10%"⟩ = DataValue.num 1000 := by
  have h := c5_percentage_amended ⟨1, 1, some 10, "10%"⟩ 10 rfl (by decide) (by decide)
    (by decide)
  have h2 : (10 : ℚ) * 100 = 1000 := by norm_num
  rw [h2] at h
  exact h

/-- C2: the claim says every Column Set `getSheetColumns` returns is gap-free
(nulls, never holes).  In the source the backfill loop meant to establish this
("Insert null for empty spreadsheet cells (#5298)") increments `i` instead of
`j` and bounds `j` by the total cell count, so for a non-empty feed it never
returns: after the assignment phase the single column still has holes below the
value, and the loop then dereferences `columns[1]`, which is undefined, and
throws a TypeError.  The input: one cell at 1-based row 3, column 1, default
window. -/
theorem c2_backfill_throws_instead_of_filling :
    assignCells defaultOptions [⟨3, 1, some 7, "7"⟩]
        (allocColumns defaultOptions (colCountOf [⟨3, 1, some 7, "7"⟩])) =
      Except.ok [some [none, none, some (DataValue.num 7)]] ∧
    getSheetColumns defaultOptions [⟨3, 1, some 7, "7"⟩] =
      Except.error JsError.typeError :=
  ⟨rfl, rfl⟩

/-- C3: the claim (and the evident intent) is that the single-cell feed
`(row 1, col 1, value 5, text "5")` with the default window yields `[[5]]`.
The assignment phase does build exactly `[[5]]`, but `getSheetColumns` never
returns it: the broken backfill loop walks past the one allocated column and
throws a TypeError. -/
theorem c3_single_cell_throws_after_assignment :
    assignCells defaultOptions [⟨1, 1, some 5, "5"⟩]
        (allocColumns defaultOptions (colCountOf [⟨1, 1, some 5, "5"⟩])) =
      Except.ok [some [some (DataValue.num 5)]] ∧
    getSheetColumns defaultOptions [⟨1, 1, some 5, "5"⟩] =
      Except.error JsError.typeError :=
  ⟨rfl, rfl⟩

/-- C4 counterexample: a feed whose only cell is at 1-based row 10 lies
entirely outside a window ending at row 5, yet `getSheetColumns` does not
return the empty Column Set `[]`: the allocation loop still allocates one
empty column (indices up to the maximum seen column are allocated regardless
of where the cells sit), the backfill loop turns it into `[null]` and then
throws a TypeError. -/
theorem c4_counterexample :
    decide (inWindow optsRowsTo5 ⟨10, 1, some 1, "1"⟩) = false ∧
    getSheetColumns optsRowsTo5 feedOutside = Except.error JsError.typeError ∧
    allocColumns optsRowsTo5 (colCountOf feedOutside) = [some []] :=
  ⟨by decide, rfl, rfl⟩

/-- C4 amended: for every feed all of whose entries lie outside the configured
window, no cell value is stored — the assignment loop drops every cell and
leaves the allocated columns exactly as the allocation loop made them, every
slot a hole or an empty column — but `getSheetColumns` does not return an
empty Column Set: columns up to the maximum seen column index are still
allocated, and the backfill loop then throws. -/
theorem c4_out_of_window_stores_nothing (o : SheetOptions) (cells : List GsCell)
    (h : ∀ c ∈ cells, ¬ inWindow o c) :
    assignCells o cells (allocColumns o (colCountOf cells)) =
      Except.ok (allocColumns o (colCountOf cells)) ∧
    ∀ x ∈ allocColumns o (colCountOf cells), x = none ∨ x = some ([] : JsArr DataValue) :=
  ⟨assignCells_out_of_window o cells _ h, allocColumns_mem o (colCountOf cells)⟩

/-- C4 witness: the out-of-window one-cell feed stores nothing in the one
allocated (empty) column. -/
theorem c4_witness :
    assignCells optsRowsTo5 feedOutside (allocColumns optsRowsTo5 (colCountOf feedOutside)) =
      Except.ok (allocColumns optsRowsTo5 (colCountOf feedOutside)) :=
  (c4_out_of_window_stores_nothing optsRowsTo5 feedOutside (by decide)).1

/-- C1 counterexample: on a payload whose feed has zero entries, the load
cycle does not abort after `parseSheet`'s guard: `fetchSheet`'s success
continuation ignores the `false` return, builds a Result Table from the
(empty) retained columns anyway, and fires `afterLoad` with it.  The claim's
"no Result Table is constructed and no `afterLoad` is emitted" is false. -/
theorem c1_counterexample :
    (successHandler optsK [] ⟨some []⟩).table = some (DataTable.mk [] []) ∧
    (successHandler optsK [] ⟨some []⟩).events =
      [SheetEvent.load ⟨some []⟩, SheetEvent.afterLoad (DataTable.mk [] [])] :=
  ⟨rfl, rfl⟩

/-- C1 amended: on a payload whose feed is missing or has zero entries,
`parseSheet` returns `false` without firing `parse` or `afterParse` and
without touching the columns, but the success pipeline continues regardless:
starting from the initial empty column state it still constructs a Result
Table (from the retained columns) and still fires `afterLoad`; only `load`
and `afterLoad` appear on the trace. -/
theorem c1_empty_feed_still_loads (o : SheetOptions) (json : SheetPayload)
    (h : json.entry = none ∨ json.entry = some []) :
    successHandler o [] json =
      ⟨[SheetEvent.load json, SheetEvent.afterLoad (DataTable.mk [] [])], [],
        some (DataTable.mk [] []), o.enablePolling, none⟩ := by
  have hp : parseSheet o [] json = ⟨[], [], some false, none⟩ := by
    rcases h with h | h
    · simp [parseSheet, h]
    · simp [parseSheet, h]
  simp only [successHandler, hp]
  rfl

/-- C1 witness: the concrete empty-feed payload on a fresh store. -/
theorem c1_witness :
    successHandler optsK [] ⟨some []⟩ =
      ⟨[SheetEvent.load ⟨some []⟩, SheetEvent.afterLoad (DataTable.mk [] [])], [],
        some (DataTable.mk [] []), false, none⟩ :=
  c1_empty_feed_still_loads optsK ⟨some []⟩ (Or.inr rfl)

/-- C10: when `feed.entry` is missing or empty, `parseSheet` returns `false`,
fires no event, and leaves the store's columns exactly as they were (the
previously held Column Set is retained, not cleared). -/
theorem c10_empty_feed_guard (o : SheetOptions) (cols : JsArr (JsArr DataValue))
    (json : SheetPayload) (h : json.entry = none ∨ json.entry = some []) :
    parseSheet o cols json = ⟨[], cols, some false, none⟩ := by
  rcases h with h | h
  · simp [parseSheet, h]
  · simp [parseSheet, h]

/-- C10 witness: a store already holding one column keeps it when the payload
has no `feed.entry`. -/
theorem c10_witness :
    parseSheet optsK [some [some (DataValue.num 1)]] ⟨none⟩ =
      ⟨[], [some [some (DataValue.num 1)]], some false, none⟩ :=
  c10_empty_feed_guard optsK [some [some (DataValue.num 1)]] ⟨none⟩ (Or.inl rfl)

/-- C7: `load()` initiates a fetch exactly when the configured
`googleSpreadsheetKey` is a non-empty string (string truthiness); with a
missing/empty key it returns `undefined` with no request, no event and no
state change (`none` in the model). -/
theorem c7_load_requires_key (o : SheetOptions) (cols : JsArr (JsArr DataValue))
    (r : TransportResult) :
    (o.googleSpreadsheetKey = "" → load o cols r = none) ∧
    (o.googleSpreadsheetKey ≠ "" → load o cols r = some (fetchSheet o cols r)) := by
  constructor
  · intro h
    simp [load, h]
  · intro h
    simp [load, h]

/-- C7 witness: the default options carry the empty key, so `load` is a
no-op on them; with a key set, the fetch outcome is produced. -/
theorem c7_witness :
    load defaultOptions [] (TransportResult.failure "x") = none :=
  (c7_load_requires_key defaultOptions [] (TransportResult.failure "x")).1 rfl

/-- C8: on a transport failure the error handler fires exactly one `fail`
event carrying the error detail, and nothing else happens: no table is built,
no polling timer is scheduled even when polling is enabled, no exception
escapes, and the columns are untouched. -/
theorem c8_transport_failure_fires_fail (o : SheetOptions)
    (cols : JsArr (JsArr DataValue)) (text : String) :
    (fetchSheet o cols (TransportResult.failure text)).events = [SheetEvent.fail text] ∧
    (fetchSheet o cols (TransportResult.failure text)).table = none ∧
    (fetchSheet o cols (TransportResult.failure text)).scheduled = false ∧
    (fetchSheet o cols (TransportResult.failure text)).thrown = none ∧
    (fetchSheet o cols (TransportResult.failure text)).columns = cols :=
  ⟨rfl, rfl, rfl, rfl, rfl⟩

end GoogleDataStore
